import Mathlib

/-!
# Verification of `insights/client/client.py`

Shallow embedding of the registration-state management and upload-retry
logic of the insights client (`src/insights/client/client.py`).

Modelling conventions:

* Each Python function becomes a pure Lean function returning a
  `PyResult` (normal return value or raised exception) paired with the
  list of observable side effects (`Event`s) it performed, in order.
* `requests.Response` truthiness follows the library: a response is
  truthy iff `status_code < 400`.  `None` is falsy.
* `config.username` / `config.password` are strings where the empty
  string stands for any falsy Python value (absent or empty credential).
* `json.loads` on a response body is represented by carrying the raw
  body text (no claim inspects the parsed structure, and the claims
  never reach `json.loads` with malformed input).
* The helpers `write_registered_file`, `write_unregistered_file`,
  `registration_check`, `generate_machine_id`, scheduling and cache
  helpers live in modules that are not part of the excerpt; calls to
  them are recorded as events.  Their effect on the marker files is
  modelled from the spec where a claim needs it (see `Markers`).
-/

namespace InsightsClient

/-- Observable side effects performed by the client functions, in program
order.  `uploadAttempt n` is the `n`-th (1-based) call to
`pconn.upload_archive`. -/
inductive Event where
  | uploadAttempt (n : Nat)
  | sleep
  | writeLastUploadResults (text : String)
  | writeLastUpload
  | writeRegisteredFile
  | writeUnregisteredFile
  | deleteRegisteredFile
  | deleteUnregisteredFile
  | deleteMachineIdFile
  | generateMachineId (new : Bool)
  | registrationCheck
  | remoteRegister
  | remoteUnregister
  | removeScheduling
  | deleteCacheFiles
deriving DecidableEq, Repr

/-- Python exceptions that can escape the modelled functions. -/
inductive PyError where
  | runtimeError (msg : String)
  | attributeError (msg : String)
  | unregisteredException
  | invalidContentTypeException
deriving DecidableEq, Repr

/-- Result of a Python function: a returned value or a raised exception. -/
inductive PyResult (α : Type) where
  | ok (a : α)
  | err (e : PyError)
deriving DecidableEq, Repr

/-- The configuration fields consulted by the modelled functions. -/
structure Config where
  retries : Nat
  legacy_upload : Bool
  force : Bool
  reregister : Bool
  register : Bool
  authmethod : String
  username : String
  password : String
deriving DecidableEq, Repr

/-- Outcome of one `pconn.upload_archive` call: a typed exception or a
response with a status code and body text. -/
inductive UploadOutcome where
  | timeout
  | payloadTooLarge
  | unregisteredExc
  | invalidContentType
  | response (status_code : Nat) (text : String)
deriving DecidableEq, Repr

/-- Outcome of `registration_check(pconn)`: a boolean, or a raised
`RuntimeError` carrying a message. -/
inductive CheckResult where
  | ok (b : Bool)
  | raises (msg : String)
deriving DecidableEq, Repr

/-- The remote-service behaviour consulted by the registration and
unregistration paths. -/
structure RemoteService where
  check : CheckResult
  unregister_ok : Bool
deriving DecidableEq, Repr

/-- How one iteration of a Python `for` body ends: fall through to the
next iteration, leave the loop with the function result (`return`, or
`break` followed by returning the accumulated value), or raise. -/
inductive LoopStep (α : Type) where
  | next
  | exit (a : α)
  | err (e : PyError)

/-- `for tries in range(n)` runner: `i` is the current iteration index,
the second `Nat` the remaining iterations.  `a0` is the value returned
when the loop exhausts without `exit` (the function's fall-off-the-loop
result). -/
def runFor {α : Type} (body : Nat → LoopStep α × List Event) (a0 : α) :
    Nat → Nat → PyResult α × List Event
  | _, 0 => (.ok a0, [])
  | i, k + 1 =>
    match body i with
    | (.exit a, ev) => (.ok a, ev)
    | (.err e, ev) => (.err e, ev)
    | (.next, ev) =>
      let r := runFor body a0 (i + 1) k
      (r.1, ev ++ r.2)

/-- Python truthiness of a `requests.Response`: truthy iff the status
code is below 400. -/
def responseTruthy (status_code : Nat) : Bool := status_code < 400

/-- One iteration of the `_legacy_upload` retry loop (`client.py`
lines 256-297), for 0-based index `tries`.

* `TimeoutException` sets `upload = None`; the `if not upload:` branch
  is then taken and the `logger.error` call eagerly evaluates
  `upload.status_code`, raising `AttributeError` on `None`.
* `PayloadTooLargeException` / `UnregisteredException` are re-raised as
  `RuntimeError('Upload failed.')`; `InvalidContentTypeException` is not
  caught and propagates.
* On a falsy response with attempts remaining the code sleeps and then
  falls through (there is no `continue`) into the success block:
  `json.loads`, the last-upload-results write, the last-upload marker
  write and `break`. -/
def legacy_upload_body (cfg : Config) (svc : Nat → UploadOutcome) (tries : Nat) :
    LoopStep (Option String) × List Event :=
  match svc tries with
  | .timeout =>
    (.err (.attributeError "NoneType has no attribute status_code"),
     [.uploadAttempt (tries + 1)])
  | .payloadTooLarge =>
    (.err (.runtimeError "Upload failed."), [.uploadAttempt (tries + 1)])
  | .unregisteredExc =>
    (.err (.runtimeError "Upload failed."), [.uploadAttempt (tries + 1)])
  | .invalidContentType =>
    (.err .invalidContentTypeException, [.uploadAttempt (tries + 1)])
  | .response status text =>
    if !responseTruthy status then
      if tries + 1 ≠ cfg.retries then
        (.exit (some text),
         [.uploadAttempt (tries + 1), .sleep, .writeLastUploadResults text,
          .writeLastUpload])
      else
        (.err (.runtimeError "Upload failed."), [.uploadAttempt (tries + 1)])
    else
      (.exit (some text),
       [.uploadAttempt (tries + 1), .writeLastUploadResults text, .writeLastUpload])

/-- `_legacy_upload` (`client.py` lines 253-299): runs the retry loop;
`api_response` is `None` when the loop body never runs. -/
def _legacy_upload (cfg : Config) (svc : Nat → UploadOutcome) :
    PyResult (Option String) × List Event :=
  runFor (legacy_upload_body cfg svc) none 0 cfg.retries

/-- One iteration of the modern `upload` retry loop (`client.py`
lines 306-333).  Same shape as the legacy body, with
`InvalidContentTypeException` (not `UnregisteredException`) converted to
`RuntimeError`, no last-upload-results write, and `return` (value
`None`) instead of `break`. -/
def upload_body (cfg : Config) (svc : Nat → UploadOutcome) (tries : Nat) :
    LoopStep (Option String) × List Event :=
  match svc tries with
  | .timeout =>
    (.err (.attributeError "NoneType has no attribute status_code"),
     [.uploadAttempt (tries + 1)])
  | .payloadTooLarge =>
    (.err (.runtimeError "Upload failed."), [.uploadAttempt (tries + 1)])
  | .invalidContentType =>
    (.err (.runtimeError "Upload failed."), [.uploadAttempt (tries + 1)])
  | .unregisteredExc =>
    (.err .unregisteredException, [.uploadAttempt (tries + 1)])
  | .response status _text =>
    if !responseTruthy status then
      if tries + 1 ≠ cfg.retries then
        (.exit none, [.uploadAttempt (tries + 1), .sleep, .writeLastUpload])
      else
        (.err (.runtimeError "Upload failed."), [.uploadAttempt (tries + 1)])
    else
      (.exit none, [.uploadAttempt (tries + 1), .writeLastUpload])

/-- `upload` (`client.py` lines 302-333): dispatches to the legacy
variant when `config.legacy_upload` is set, otherwise runs the modern
retry loop (returning `None` on success and when the loop exhausts). -/
def upload (cfg : Config) (svc : Nat → UploadOutcome) :
    PyResult (Option String) × List Event :=
  if cfg.legacy_upload then _legacy_upload cfg svc
  else runFor (upload_body cfg svc) none 0 cfg.retries

/-- `_legacy_handle_registration` (`client.py` lines 102-141). -/
def _legacy_handle_registration (cfg : Config) (svc : RemoteService) :
    PyResult Bool × List Event :=
  let ev0 : List Event :=
    if cfg.reregister then
      [.deleteRegisteredFile, .deleteUnregisteredFile, .deleteMachineIdFile]
    else []
  let ev1 := ev0 ++ [.generateMachineId cfg.reregister, .registrationCheck]
  match svc.check with
  | .raises m => (.err (.runtimeError m), ev1)
  | .ok check =>
    if check then (.ok true, ev1)
    else if cfg.register then
      if cfg.authmethod == "BASIC" && (cfg.username == "" || cfg.password == "") then
        (.ok false, ev1)
      else
        (.ok true, ev1 ++ [.remoteRegister, .writeRegisteredFile])
    else (.ok false, ev1)

/-- `handle_registration` (`client.py` lines 144-149): legacy result
when `config.legacy_upload`, otherwise Python's implicit `None`. -/
def handle_registration (cfg : Config) (svc : RemoteService) :
    PyResult (Option Bool) × List Event :=
  if cfg.legacy_upload then
    match _legacy_handle_registration cfg svc with
    | (.ok b, ev) => (.ok (some b), ev)
    | (.err e, ev) => (.err e, ev)
  else (.ok none, [])

/-- The events of `__cleanup_local_files` inside
`_legacy_handle_unregistration` (`client.py` lines 157-160). -/
def cleanup_local_files : List Event :=
  [.writeUnregisteredFile, .removeScheduling, .deleteCacheFiles]

/-- `_legacy_handle_unregistration` (`client.py` lines 153-179). -/
def _legacy_handle_unregistration (cfg : Config) (svc : RemoteService) :
    PyResult Bool × List Event :=
  match svc.check with
  | .raises m =>
    if cfg.force then (.ok true, .registrationCheck :: cleanup_local_files)
    else (.err (.runtimeError m), [.registrationCheck])
  | .ok check =>
    let (unreg, ev) :=
      if check then (svc.unregister_ok, [Event.registrationCheck, Event.remoteUnregister])
      else (true, [Event.registrationCheck])
    if unreg then (.ok unreg, ev ++ cleanup_local_files)
    else (.ok unreg, ev)

/-- `handle_unregistration` (`client.py` lines 182-196). -/
def handle_unregistration (cfg : Config) (svc : RemoteService) :
    PyResult Bool × List Event :=
  if cfg.legacy_upload then _legacy_handle_unregistration cfg svc
  else
    let unreg := svc.unregister_ok
    if unreg || cfg.force then
      (.ok unreg, [.remoteUnregister, .writeUnregisteredFile, .deleteCacheFiles])
    else (.ok unreg, [.remoteUnregister])

/-- Presence of the two registration marker files. -/
structure Markers where
  registered : Bool
  unregistered : Bool
deriving DecidableEq, Repr

/-- Modelled from the spec: `write_registered_file` lives in
`insights.client.utilities`, which is not part of the excerpt.  The spec
states the markers are "mutually exclusive — writing one must remove the
other", so writing the registered marker also removes the unregistered
marker. -/
def write_registered_file (_s : Markers) : Markers :=
  { registered := true, unregistered := false }

/-- Modelled from the spec: `write_unregistered_file` lives in
`insights.client.utilities`, which is not part of the excerpt.  Writing
the unregistered marker also removes the registered marker. -/
def write_unregistered_file (_s : Markers) : Markers :=
  { registered := false, unregistered := true }

/-- `delete_registered_file`: removes the registered marker (deleting a
missing marker is a no-op). -/
def delete_registered_file (s : Markers) : Markers := { s with registered := false }

/-- `delete_unregistered_file`: removes the unregistered marker. -/
def delete_unregistered_file (s : Markers) : Markers := { s with unregistered := false }

/-- Effect of one event on the marker files; events that do not touch
the registration markers leave them unchanged. -/
def applyEvent (s : Markers) : Event → Markers
  | .writeRegisteredFile => write_registered_file s
  | .writeUnregisteredFile => write_unregistered_file s
  | .deleteRegisteredFile => delete_registered_file s
  | .deleteUnregisteredFile => delete_unregistered_file s
  | _ => s

/-- Checks along an event trace that immediately after every
registered-marker write the unregistered marker is absent, and
immediately after every unregistered-marker write the registered marker
is absent. -/
def markersExclusiveAfterWrites (s : Markers) : List Event → Bool
  | [] => true
  | e :: rest =>
    let s2 := applyEvent s e
    (match e with
     | .writeRegisteredFile => !s2.unregistered
     | .writeUnregisteredFile => !s2.registered
     | _ => true) && markersExclusiveAfterWrites s2 rest

/-- A convenient concrete configuration used by witnesses and
counterexamples; individual fields are overridden per theorem. -/
def baseCfg : Config :=
  { retries := 3, legacy_upload := false, force := false, reregister := false,
    register := false, authmethod := "BASIC", username := "", password := "" }

/-- A remote service whose every upload attempt times out. -/
def allTimeouts : Nat → UploadOutcome := fun _ => .timeout

/-- Upload attempts returning status 500 twice and status 201 from the
third attempt on. -/
def svc500x2 : Nat → UploadOutcome := fun n =>
  if n < 2 then .response 500 "Internal Server Error" else .response 201 "ok"

/-- C1: the claim says that with `retries = N ≥ 1` and every
`upload_archive` call raising Timeout, both upload variants make exactly
N attempts with N−1 backoff sleeps and then report a fatal failure.  The
code instead raises `AttributeError` during the attempt-failure log call
of the very first attempt (it evaluates `upload.status_code` while
`upload` is `None`): at `retries = 3`, both variants perform exactly one
attempt, zero sleeps, and raise `AttributeError` rather than the fatal
`RuntimeError`. -/
theorem C1_all_timeouts_crash_first_attempt :
    upload { baseCfg with legacy_upload := true } allTimeouts
      = (.err (.attributeError "NoneType has no attribute status_code"),
         [.uploadAttempt 1])
  ∧ upload baseCfg allTimeouts
      = (.err (.attributeError "NoneType has no attribute status_code"),
         [.uploadAttempt 1]) :=
  ⟨rfl, rfl⟩

/-- C2: the claim says that with `retries = 3`, legacy disabled, and
upload responses 500, 500, success, the operation succeeds after 3
attempts with exactly 2 backoff sleeps.  The retry branch of the code
has no `continue`: after logging the first status-500 failure and
sleeping once, control falls through into the success block, writing the
last-upload marker and returning success after a single attempt and a
single sleep — attempts 2 and 3 never happen. -/
theorem C2_status500_fallthrough :
    upload baseCfg svc500x2
      = (.ok none, [.uploadAttempt 1, .sleep, .writeLastUpload]) :=
  rfl

/-- C10: with `retries = 0` neither upload variant performs any attempt
or side effect; both return normally (`None`) without raising. -/
theorem C10_zero_retries_no_attempts (cfg : Config) (svc : Nat → UploadOutcome)
    (h : cfg.retries = 0) :
    upload cfg svc = (.ok none, []) := by
  unfold upload _legacy_upload
  rw [h]
  cases cfg.legacy_upload <;> simp [runFor]

/-- Witness for C10 at a concrete configuration with `retries = 0`. -/
theorem C10_zero_retries_witness :
    upload { baseCfg with retries := 0 } (fun _ => .timeout) = (.ok none, []) :=
  C10_zero_retries_no_attempts { baseCfg with retries := 0 } (fun _ => .timeout) rfl

/-- A remote service whose `unregister()` call reports failure. -/
def svcUnregFails : RemoteService := { check := .ok true, unregister_ok := false }

/-- C3 counterexample: modern-protocol unregistration with the force
flag and a failing `pconn.unregister()` writes the unregistered marker
and deletes the cache, but returns `False` — it does not report
success as the claim states. -/
theorem C3_force_reports_remote_failure :
    (handle_unregistration { baseCfg with force := true } svcUnregFails).1
      = .ok false
  ∧ Event.writeUnregisteredFile
      ∈ (handle_unregistration { baseCfg with force := true } svcUnregFails).2 :=
  ⟨rfl, by decide⟩

/-- C3 (amended): for the modern protocol with the force flag set, the
unregistered marker is written and cached collection state is deleted
even when the remote call failed, but the operation reports the remote
call's own result — failure when `pconn.unregister()` returned
failure. -/
theorem C3_force_cleanup_returns_remote_result (cfg : Config) (svc : RemoteService)
    (hl : cfg.legacy_upload = false) (hf : cfg.force = true) :
    handle_unregistration cfg svc
      = (.ok svc.unregister_ok,
         [.remoteUnregister, .writeUnregisteredFile, .deleteCacheFiles]) := by
  unfold handle_unregistration
  rw [hl]
  cases h : svc.unregister_ok <;> simp [hf, h]

/-- Witness for C3 (amended) at a concrete configuration and service. -/
theorem C3_force_cleanup_witness :
    handle_unregistration { baseCfg with force := true } svcUnregFails
      = (.ok false,
         [.remoteUnregister, .writeUnregisteredFile, .deleteCacheFiles]) :=
  C3_force_cleanup_returns_remote_result { baseCfg with force := true }
    svcUnregFails rfl rfl

/-- A `runFor` loop whose first executed iteration raises stops with
that error and exactly that iteration's events. -/
theorem runFor_err {α : Type} (body : Nat → LoopStep α × List Event) (a0 : α)
    (i k : Nat) (e : PyError) (ev : List Event) (h : body i = (.err e, ev)) :
    runFor body a0 i (k + 1) = (.err e, ev) := by
  simp [runFor, h]

/-- C4: with more than one retry configured, a `PayloadTooLargeException`
on attempt 1 makes both upload variants raise
`RuntimeError('Upload failed.')` immediately — exactly one attempt, no
sleep; the same holds for `UnregisteredException` in the legacy variant
and `InvalidContentTypeException` in the modern variant. -/
theorem C4_fatal_exceptions_abort_immediately (cfg : Config)
    (svc : Nat → UploadOutcome) (hr : 1 < cfg.retries) :
    (svc 0 = .payloadTooLarge →
        upload { cfg with legacy_upload := true } svc
          = (.err (.runtimeError "Upload failed."), [.uploadAttempt 1])
      ∧ upload { cfg with legacy_upload := false } svc
          = (.err (.runtimeError "Upload failed."), [.uploadAttempt 1]))
  ∧ (svc 0 = .unregisteredExc →
      upload { cfg with legacy_upload := true } svc
        = (.err (.runtimeError "Upload failed."), [.uploadAttempt 1]))
  ∧ (svc 0 = .invalidContentType →
      upload { cfg with legacy_upload := false } svc
        = (.err (.runtimeError "Upload failed."), [.uploadAttempt 1])) := by
  obtain ⟨k, hk⟩ : ∃ k, cfg.retries = k + 1 := ⟨cfg.retries - 1, by omega⟩
  refine ⟨fun h => ⟨?_, ?_⟩, fun h => ?_, fun h => ?_⟩ <;>
    simp only [upload, _legacy_upload, if_pos, if_neg, Bool.false_eq_true,
      if_true, if_false, hk] <;>
    exact runFor_err _ _ _ _ _ _ (by simp [legacy_upload_body, upload_body, h])

/-- Witness for C4: `retries = 3` with each fatal exception kind on the
relevant variant. -/
theorem C4_fatal_exceptions_witness :
    upload { baseCfg with legacy_upload := true } (fun _ => .payloadTooLarge)
      = (.err (.runtimeError "Upload failed."), [.uploadAttempt 1])
  ∧ upload { baseCfg with legacy_upload := false } (fun _ => .payloadTooLarge)
      = (.err (.runtimeError "Upload failed."), [.uploadAttempt 1])
  ∧ upload { baseCfg with legacy_upload := true } (fun _ => .unregisteredExc)
      = (.err (.runtimeError "Upload failed."), [.uploadAttempt 1])
  ∧ upload { baseCfg with legacy_upload := false } (fun _ => .invalidContentType)
      = (.err (.runtimeError "Upload failed."), [.uploadAttempt 1]) :=
  ⟨((C4_fatal_exceptions_abort_immediately baseCfg (fun _ => .payloadTooLarge)
      (by decide)).1 rfl).1,
   ((C4_fatal_exceptions_abort_immediately baseCfg (fun _ => .payloadTooLarge)
      (by decide)).1 rfl).2,
   (C4_fatal_exceptions_abort_immediately baseCfg (fun _ => .unregisteredExc)
      (by decide)).2.1 rfl,
   (C4_fatal_exceptions_abort_immediately baseCfg (fun _ => .invalidContentType)
      (by decide)).2.2 rfl⟩

/-- C5: in legacy unregistration, when `registration_check` raises a
`RuntimeError`: with the force flag the unregistered marker is written,
scheduling removed and cached files deleted, and the operation reports
success; without it the error propagates and no local cleanup happens. -/
theorem C5_check_raises_force_behaviour (cfg : Config) (svc : RemoteService)
    (m : String) (hc : svc.check = .raises m) :
    (cfg.force = true →
        _legacy_handle_unregistration cfg svc
          = (.ok true, [.registrationCheck, .writeUnregisteredFile,
                        .removeScheduling, .deleteCacheFiles]))
  ∧ (cfg.force = false →
      _legacy_handle_unregistration cfg svc
        = (.err (.runtimeError m), [.registrationCheck])) := by
  unfold _legacy_handle_unregistration
  rw [hc]
  constructor <;> intro h <;> simp [h, cleanup_local_files]

/-- Witness for C5: a check that raises, with force on and off. -/
theorem C5_check_raises_witness :
    _legacy_handle_unregistration { baseCfg with force := true }
        { check := .raises "connection error", unregister_ok := false }
      = (.ok true, [.registrationCheck, .writeUnregisteredFile,
                    .removeScheduling, .deleteCacheFiles])
  ∧ _legacy_handle_unregistration baseCfg
        { check := .raises "connection error", unregister_ok := false }
      = (.err (.runtimeError "connection error"), [.registrationCheck]) :=
  ⟨(C5_check_raises_force_behaviour { baseCfg with force := true }
      { check := .raises "connection error", unregister_ok := false }
      "connection error" rfl).1 rfl,
   (C5_check_raises_force_behaviour baseCfg
      { check := .raises "connection error", unregister_ok := false }
      "connection error" rfl).2 rfl⟩

/-- C6: legacy registration with `reregister = false` and explicit
registration requested: when the remote check reports the host as
registered, the operation returns True and never calls
`pconn.register()`. -/
theorem C6_already_registered_skips_register (cfg : Config) (svc : RemoteService)
    (hrr : cfg.reregister = false) (hreg : cfg.register = true)
    (hc : svc.check = .ok true) :
    _legacy_handle_registration cfg svc
      = (.ok true, [.generateMachineId false, .registrationCheck])
  ∧ Event.remoteRegister ∉ (_legacy_handle_registration cfg svc).2 := by
  have h : _legacy_handle_registration cfg svc
      = (.ok true, [.generateMachineId false, .registrationCheck]) := by
    unfold _legacy_handle_registration
    rw [hc, hrr]
    simp
  exact ⟨h, by rw [h]; decide⟩

/-- Witness for C6 at a concrete configuration and service. -/
theorem C6_already_registered_witness :
    _legacy_handle_registration { baseCfg with register := true }
        { check := .ok true, unregister_ok := true }
      = (.ok true, [.generateMachineId false, .registrationCheck])
  ∧ Event.remoteRegister
      ∉ (_legacy_handle_registration { baseCfg with register := true }
          { check := .ok true, unregister_ok := true }).2 :=
  C6_already_registered_skips_register { baseCfg with register := true }
    { check := .ok true, unregister_ok := true } rfl rfl rfl

/-- C7: in legacy unregistration with a successful registration check:
when the host is registered and `pconn.unregister()` fails, no marker is
written and no cached file is deleted, and the operation reports
failure; when the host is already unregistered, local cleanup runs and
the operation reports success. -/
theorem C7_cleanup_only_on_confirmed_success (cfg : Config) (svc : RemoteService) :
    (svc.check = .ok true → svc.unregister_ok = false →
        _legacy_handle_unregistration cfg svc
          = (.ok false, [.registrationCheck, .remoteUnregister]))
  ∧ (svc.check = .ok false →
      _legacy_handle_unregistration cfg svc
        = (.ok true, [.registrationCheck, .writeUnregisteredFile,
                      .removeScheduling, .deleteCacheFiles])) := by
  constructor
  · intro hc hu
    unfold _legacy_handle_unregistration
    rw [hc]
    simp [hu]
  · intro hc
    unfold _legacy_handle_unregistration
    rw [hc]
    simp [cleanup_local_files]

/-- Witness for C7: a failing remote unregister on a registered host,
and an already-unregistered host. -/
theorem C7_cleanup_witness :
    _legacy_handle_unregistration baseCfg
        { check := .ok true, unregister_ok := false }
      = (.ok false, [.registrationCheck, .remoteUnregister])
  ∧ _legacy_handle_unregistration baseCfg
        { check := .ok false, unregister_ok := false }
      = (.ok true, [.registrationCheck, .writeUnregisteredFile,
                    .removeScheduling, .deleteCacheFiles]) :=
  ⟨(C7_cleanup_only_on_confirmed_success baseCfg
      { check := .ok true, unregister_ok := false }).1 rfl rfl,
   (C7_cleanup_only_on_confirmed_success baseCfg
      { check := .ok false, unregister_ok := false }).2 rfl⟩

/-- C8 counterexample: with explicit registration requested, BASIC auth
and no username, a host the remote check reports as already registered
makes legacy registration return True (proceed), not the claimed "do not
proceed": missing credentials alone do not make the operation fail. -/
theorem C8_missing_credentials_already_registered :
    (_legacy_handle_registration
        { baseCfg with register := true, password := "secret" }
        { check := .ok true, unregister_ok := true }).1
      = .ok true :=
  rfl

/-- C8 (amended): with explicit registration requested, BASIC auth, a
missing username or password, and the remote check reporting the host as
not registered, legacy registration returns False before any network
registration call: `pconn.register()` is not called and the registered
marker is not written. -/
theorem C8_missing_credentials_fail (cfg : Config) (svc : RemoteService)
    (hreg : cfg.register = true) (ha : cfg.authmethod = "BASIC")
    (hcred : cfg.username = "" ∨ cfg.password = "")
    (hc : svc.check = .ok false) :
    (_legacy_handle_registration cfg svc).1 = .ok false
  ∧ Event.remoteRegister ∉ (_legacy_handle_registration cfg svc).2
  ∧ Event.writeRegisteredFile ∉ (_legacy_handle_registration cfg svc).2 := by
  have hcond : (cfg.authmethod == "BASIC"
      && (cfg.username == "" || cfg.password == "")) = true := by
    rcases hcred with h | h <;> simp [ha, h]
  have h : _legacy_handle_registration cfg svc
      = (.ok false,
         (if cfg.reregister then
            [.deleteRegisteredFile, .deleteUnregisteredFile, .deleteMachineIdFile]
          else [])
           ++ [.generateMachineId cfg.reregister, .registrationCheck]) := by
    unfold _legacy_handle_registration
    rw [hc]
    simp [hreg, hcond]
  refine ⟨by rw [h], ?_, ?_⟩ <;> rw [h] <;> cases cfg.reregister <;> decide

/-- Witness for C8 (amended): BASIC auth with an empty username and an
unregistered host. -/
theorem C8_missing_credentials_witness :
    (_legacy_handle_registration
        { baseCfg with register := true, password := "secret" }
        { check := .ok false, unregister_ok := true }).1
      = .ok false
  ∧ Event.remoteRegister
      ∉ (_legacy_handle_registration
          { baseCfg with register := true, password := "secret" }
          { check := .ok false, unregister_ok := true }).2
  ∧ Event.writeRegisteredFile
      ∉ (_legacy_handle_registration
          { baseCfg with register := true, password := "secret" }
          { check := .ok false, unregister_ok := true }).2 :=
  C8_missing_credentials_fail
    { baseCfg with register := true, password := "secret" }
    { check := .ok false, unregister_ok := true } rfl rfl (Or.inl rfl) rfl

/-- Every event trace keeps the marker files mutually exclusive right
after each marker write: writing one marker removes the other. -/
theorem markersExclusive_all (s : Markers) (evs : List Event) :
    markersExclusiveAfterWrites s evs = true := by
  induction evs generalizing s with
  | nil => rfl
  | cons e rest ih =>
    cases e <;>
      simp [markersExclusiveAfterWrites, applyEvent, write_registered_file,
        write_unregistered_file, delete_registered_file,
        delete_unregistered_file, ih]

/-- C9: along the traces of registration, unregistration and upload (for
any configuration, remote behaviour and initial marker state), the
registered and unregistered markers are mutually exclusive immediately
after every marker write: writing one removes the other. -/
theorem C9_marker_mutual_exclusion (cfg : Config) (svc : RemoteService)
    (usvc : Nat → UploadOutcome) (s : Markers) :
    markersExclusiveAfterWrites s (handle_registration cfg svc).2 = true
  ∧ markersExclusiveAfterWrites s (handle_unregistration cfg svc).2 = true
  ∧ markersExclusiveAfterWrites s (upload cfg usvc).2 = true :=
  ⟨markersExclusive_all s (handle_registration cfg svc).2,
   markersExclusive_all s (handle_unregistration cfg svc).2,
   markersExclusive_all s (upload cfg usvc).2⟩

end InsightsClient
